import Mathlib

/-!
Shallow embedding of the wall-follower high-level controller
(`src/Packages/robot/src/high_level_control.cpp`).

Doubles and floats are modelled exactly as rationals (`ℚ`). The constant
`sin(PI / 3.0)` computed by libm in `HitCircle` is a fixed numeric value
whose exact magnitude never influences the control structure, so the model
takes it as a parameter `s`.

Out-of-range `std::vector` indexing in the C++ is undefined behaviour with
no handler anywhere in the program; the model makes every raw index access
`List.get?`-checked and propagates `none` to mark a cycle whose execution
is undefined in the source.
-/

namespace WallFollower

attribute [local semireducible] Rat.mul Rat.add Rat.sub Rat.inv Rat.ofScientific

/-- Modelled from the spec: the `TurnType` enumeration is declared in
`high_level_control.h`, which is not under `src/`. The spec fixes the sign
encoding (LEFT ↦ +1, NONE ↦ 0, RIGHT ↦ −1) and records that the code derives
the sign as `turn_type_ - 1`, so the underlying ordinals are
RIGHT = 0, NONE = 1, LEFT = 2. -/
inductive TurnType where
  | RIGHT
  | NONE
  | LEFT
deriving DecidableEq, Repr

/-- The integer value of the C++ enumerator (RIGHT = 0, NONE = 1, LEFT = 2). -/
def TurnType.ordinal : TurnType → ℤ
  | .RIGHT => 0
  | .NONE => 1
  | .LEFT => 2

/-- The sign multiplier the code computes as `move_specs_.turn_type_ - 1`. -/
def TurnType.sign (t : TurnType) : ℚ := ((t.ordinal - 1 : ℤ) : ℚ)

/-- An inclusive index window into a scan frame (`Range` in the headers;
the spec's `SectorWindow {lowIndex, highIndex}`). -/
structure SectorRange where
  low_lim_ : ℕ
  high_lim_ : ℕ
deriving DecidableEq, Repr

/-- `MoveSpecs`: thresholds, velocities, the three sector windows and the
current turn direction, as read by `high_level_control.cpp`. -/
structure MoveSpecs where
  high_security_distance_ : ℚ
  low_security_distance_ : ℚ
  wall_follow_distance_ : ℚ
  linear_velocity_ : ℚ
  angular_velocity_ : ℚ
  right_range_ : SectorRange
  left_range_ : SectorRange
  center_range_ : SectorRange
  turn_type_ : TurnType
deriving DecidableEq, Repr

/-- `MoveStatus`: the three booleans mutated each cycle. -/
structure MoveStatus where
  can_continue_ : Bool
  is_close_to_wall_ : Bool
  is_following_wall_ : Bool
deriving DecidableEq, Repr

/-- Modelled from the spec: `Min(a, b, c)` from `util_functions.h` (not under
`src/`); the three-way minimum used by `CanContinue` in the NONE case. -/
def Min3 (a b c : ℚ) : ℚ := min a (min b c)

/-- Modelled from the spec: `GetMin(ranges, low, high)` from
`util_functions.h` (not under `src/`); spec §4.1 `minInWindow`: the smallest
value in the inclusive index window, failing if the window is empty or its
bounds exceed the frame length. (All modelled readings are finite.) -/
def GetMin (ranges : List ℚ) (low high : ℕ) : Option ℚ :=
  if low ≤ high ∧ high < ranges.length then
    ((ranges.drop low).take (high + 1 - low)).min?
  else
    none

/-- `HighLevelControl::CanContinue` (high_level_control.cpp:147-171),
returning the value stored into `move_status_.can_continue_`. -/
def CanContinue (specs : MoveSpecs) (right_min_distance left_min_distance
    center_min_distance : ℚ) : Bool :=
  let pr_se : ℚ × ℚ :=
    match specs.turn_type_ with
    | .RIGHT =>
        (if center_min_distance < right_min_distance then center_min_distance
         else right_min_distance,
         left_min_distance)
    | .LEFT =>
        (if center_min_distance < left_min_distance then center_min_distance
         else left_min_distance,
         right_min_distance)
    | .NONE =>
        let m := Min3 right_min_distance left_min_distance center_min_distance
        (m, m)
  if pr_se.1 > specs.high_security_distance_ ∧
      pr_se.2 > specs.low_security_distance_ then
    true
  else
    false

/-- `HighLevelControl::IsCloseToWall` (high_level_control.cpp:173-192),
returning the updated `MoveStatus`. In the NONE-while-following branch the
code calls `ros::shutdown()` and the subsequent read of the uninitialised
local `min` is undefined behaviour; the model returns `none` (fatal, no
defined result). -/
def IsCloseToWall (specs : MoveSpecs) (status : MoveStatus)
    (right_min_distance left_min_distance _center_min_distance : ℚ) :
    Option MoveStatus :=
  if status.is_following_wall_ then
    match specs.turn_type_ with
    | .RIGHT =>
        some { status with
          is_close_to_wall_ := right_min_distance < specs.wall_follow_distance_ }
    | .LEFT =>
        some { status with
          is_close_to_wall_ := left_min_distance < specs.wall_follow_distance_ }
    | .NONE => none
  else
    some status

/-- `HighLevelControl::NormalMovement` (high_level_control.cpp:130-145):
computes the three sector minima, then runs `CanContinue` and
`IsCloseToWall`. `none` marks a cycle whose execution is undefined. -/
def NormalMovement (specs : MoveSpecs) (status : MoveStatus)
    (ranges : List ℚ) : Option MoveStatus :=
  match GetMin ranges specs.right_range_.low_lim_ specs.right_range_.high_lim_,
      GetMin ranges specs.left_range_.low_lim_ specs.left_range_.high_lim_,
      GetMin ranges specs.center_range_.low_lim_ specs.center_range_.high_lim_ with
  | some right_min, some left_min, some center_min =>
      let status1 := { status with
        can_continue_ := CanContinue specs right_min left_min center_min }
      IsCloseToWall specs status1 right_min left_min center_min
  | _, _, _ => none

/-- `HighLevelControl::WallFollowMove` (high_level_control.cpp:224-241).
`randVal` stands for the `rand()` draw; the result is the updated specs and
status together with the emitted command, `none` when no command is
published this cycle. -/
def WallFollowMove (specs : MoveSpecs) (status : MoveStatus) (randVal : ℕ) :
    MoveSpecs × MoveStatus × Option (ℚ × ℚ) :=
  if !status.can_continue_ && !status.is_following_wall_ then
    ({ specs with
        turn_type_ := if randVal % 2 = 0 then TurnType.RIGHT else TurnType.LEFT },
     { status with is_following_wall_ := true },
     none)
  else if status.can_continue_ && !status.is_following_wall_ then
    (specs, status, some (specs.linear_velocity_, 0))
  else if status.can_continue_ && status.is_close_to_wall_ then
    (specs, status, some (specs.linear_velocity_, 0))
  else if !status.can_continue_ then
    (specs, status, some (0, specs.turn_type_.sign * specs.angular_velocity_))
  else if !status.is_close_to_wall_ then
    (specs, status, some (0, -1 * specs.turn_type_.sign * specs.angular_velocity_))
  else
    (specs, status, none)

/-- `HighLevelControl::HitCircle` (high_level_control.cpp:194-222).
`s` is the constant `sin(PI / 3.0)`. The outer `Option` is `none` when a
range access is out of bounds (undefined in the source); the inner `Option`
is the emitted command (`none` in the silent NONE branch). -/
def HitCircle (s : ℚ) (specs : MoveSpecs) (ranges : List ℚ) :
    Option (Option (ℚ × ℚ)) :=
  match specs.turn_type_ with
  | .RIGHT =>
      match ranges.get? specs.right_range_.low_lim_, ranges.get? 90 with
      | some back_value, some front_value =>
          let diff := front_value - s * back_value
          if diff ≤ 0.05 ∧ diff ≥ -0.05 then
            some (some (specs.linear_velocity_, 0))
          else if diff > 0.05 then
            some (some (0, -1 * specs.turn_type_.sign * specs.angular_velocity_ / 4))
          else
            some (some (0, specs.turn_type_.sign * specs.angular_velocity_ / 4))
      | _, _ => none
  | .LEFT =>
      match ranges.get? specs.left_range_.high_lim_, ranges.get? 630 with
      | some back_value, some front_value =>
          let diff := front_value - s * back_value
          if diff ≤ 0.05 ∧ diff ≥ -0.05 then
            some (some (specs.linear_velocity_, 0))
          else if diff > 0.05 then
            some (some (0, -1 * specs.turn_type_.sign * specs.angular_velocity_ / 4))
          else
            some (some (0, specs.turn_type_.sign * specs.angular_velocity_ / 4))
      | _, _ => none
  | .NONE => some none

/-- The controller state owned by `HighLevelControl`. -/
structure CtrlState where
  circle_hit_mode_ : Bool
  circle_x : ℚ
  circle_y : ℚ
  move_specs_ : MoveSpecs
  move_status_ : MoveStatus
deriving DecidableEq, Repr

/-- One incoming `robot/circle_detect_msg`. -/
structure CircleDetectMsg where
  ranges : List ℚ
  circle_x : ℚ
  circle_y : ℚ
deriving DecidableEq, Repr

/-- `HighLevelControl::LaserCallback` (high_level_control.cpp:104-128): one
full decision cycle. Returns the updated state and the command emitted this
cycle; `none` marks a cycle whose execution is undefined in the source
(out-of-range access or the fatal `IsCloseToWall` invariant violation). -/
def LaserCallback (s : ℚ) (st : CtrlState) (msg : CircleDetectMsg)
    (randVal : ℕ) : Option (CtrlState × Option (ℚ × ℚ)) :=
  let ranges := msg.ranges
  if !st.circle_hit_mode_ then
    let cx := msg.circle_x
    let cy := msg.circle_y
    let wallOpt : Option ℚ :=
      match st.move_specs_.turn_type_ with
      | .RIGHT => ranges.get? 380
      | .LEFT => ranges.get? 340
      | .NONE => some 1
    match wallOpt with
    | none => none
    | some wall =>
        let threshold := cx * cx + cy * cy + 0.5
        let hit : Bool :=
          if wall * wall > threshold ∧ cx > -0.5 ∧ cx < 0.5 ∧ cy < 1 then
            true
          else
            st.circle_hit_mode_
        match NormalMovement st.move_specs_ st.move_status_ ranges with
        | none => none
        | some status1 =>
            let step := WallFollowMove st.move_specs_ status1 randVal
            some ({ st with
                circle_hit_mode_ := hit
                circle_x := cx
                circle_y := cy
                move_specs_ := step.1
                move_status_ := step.2.1 },
              step.2.2)
  else
    match HitCircle s st.move_specs_ ranges with
    | none => none
    | some cmd => some (st, cmd)

/-- A run of successive cycles. A cycle whose execution is undefined in the
source leaves the modelled state unchanged. -/
def runCycles (s : ℚ) (st : CtrlState) : List (CircleDetectMsg × ℕ) → CtrlState
  | [] => st
  | (msg, randVal) :: rest =>
      match LaserCallback s st msg randVal with
      | none => runCycles s st rest
      | some (st1, _) => runCycles s st1 rest

/-! Sample configuration values used by the witness theorems. -/

/-- A sample `MoveSpecs` with turn direction RIGHT. -/
def wSpecsR : MoveSpecs where
  high_security_distance_ := 1/2
  low_security_distance_ := 1/4
  wall_follow_distance_ := 1/2
  linear_velocity_ := 3/10
  angular_velocity_ := 1
  right_range_ := ⟨0, 1⟩
  left_range_ := ⟨3, 4⟩
  center_range_ := ⟨2, 2⟩
  turn_type_ := TurnType.RIGHT

/-- The same sample `MoveSpecs` with turn direction LEFT. -/
def wSpecsL : MoveSpecs := { wSpecsR with turn_type_ := TurnType.LEFT }

/-- The C++ ternary `c < r ? c : r` computes the binary minimum. -/
lemma ite_lt_eq_min (a b : ℚ) : (if a < b then a else b) = min a b := by
  rcases lt_or_ge a b with h | h
  · simp [h, min_eq_left h.le]
  · simp [not_lt.mpr h, min_eq_right h]

/-- C3. Clearance evaluation: `CanContinue` returns true iff
`priority > highSecurityDistance` and `secondary > lowSecurityDistance`,
where for RIGHT priority = min(center, right) and secondary = left, for
LEFT priority = min(center, left) and secondary = right, and for NONE
priority = secondary = min(right, left, center). -/
theorem C3_evaluateCanContinue_iff (specs : MoveSpecs)
    (right_min left_min center_min : ℚ) :
    (specs.turn_type_ = TurnType.RIGHT →
      (CanContinue specs right_min left_min center_min = true ↔
        min center_min right_min > specs.high_security_distance_ ∧
          left_min > specs.low_security_distance_)) ∧
    (specs.turn_type_ = TurnType.LEFT →
      (CanContinue specs right_min left_min center_min = true ↔
        min center_min left_min > specs.high_security_distance_ ∧
          right_min > specs.low_security_distance_)) ∧
    (specs.turn_type_ = TurnType.NONE →
      (CanContinue specs right_min left_min center_min = true ↔
        min right_min (min left_min center_min) > specs.high_security_distance_ ∧
          min right_min (min left_min center_min) > specs.low_security_distance_)) := by
  refine ⟨fun ht => ?_, fun ht => ?_, fun ht => ?_⟩ <;>
    simp [CanContinue, ht, ite_lt_eq_min, Min3]

/-- C3 witness: a concrete clearance triple evaluated through the theorem. -/
theorem C3_evaluateCanContinue_iff_witness :
    CanContinue wSpecsR 2 2 2 = true :=
  ((C3_evaluateCanContinue_iff wSpecsR 2 2 2).1 rfl).mpr (by decide)

/-- C9. Monotonicity of clearance: enlarging each sector minimum never
flips `CanContinue` from true to false. -/
theorem C9_canContinue_monotone (specs : MoveSpecs)
    (r1 l1 c1 r2 l2 c2 : ℚ) (hr : r1 ≤ r2) (hl : l1 ≤ l2) (hc : c1 ≤ c2)
    (h : CanContinue specs r1 l1 c1 = true) :
    CanContinue specs r2 l2 c2 = true := by
  cases ht : specs.turn_type_ with
  | RIGHT =>
      simp [CanContinue, ht, ite_lt_eq_min] at h ⊢
      obtain ⟨⟨h1, h2⟩, h3⟩ := h
      exact ⟨⟨by linarith, by linarith⟩, by linarith⟩
  | LEFT =>
      simp [CanContinue, ht, ite_lt_eq_min] at h ⊢
      obtain ⟨⟨h1, h2⟩, h3⟩ := h
      exact ⟨⟨by linarith, by linarith⟩, by linarith⟩
  | NONE =>
      simp [CanContinue, ht, Min3] at h ⊢
      obtain ⟨⟨h1, h2, h3⟩, h4, h5, h6⟩ := h
      exact ⟨⟨by linarith, by linarith, by linarith⟩,
        by linarith, by linarith, by linarith⟩

/-- C9 witness: monotonicity applied at a concrete pair of triples. -/
theorem C9_canContinue_monotone_witness :
    CanContinue wSpecsR 3 3 3 = true :=
  C9_canContinue_monotone wSpecsR 1 1 1 3 3 3 (by decide) (by decide)
    (by decide) (by decide)

/-- C6. Blocked-path episode start: when `canContinue` and
`isFollowingWall` are both false, the wall-follow controller sets
`isFollowingWall` to true, picks a turn direction in {LEFT, RIGHT}, and
emits no command. -/
theorem C6_episode_start (specs : MoveSpecs) (status : MoveStatus)
    (randVal : ℕ) (hcan : status.can_continue_ = false)
    (hfoll : status.is_following_wall_ = false) :
    (WallFollowMove specs status randVal).2.1.is_following_wall_ = true ∧
      ((WallFollowMove specs status randVal).1.turn_type_ = TurnType.LEFT ∨
        (WallFollowMove specs status randVal).1.turn_type_ = TurnType.RIGHT) ∧
      (WallFollowMove specs status randVal).2.2 = none := by
  by_cases hrand : randVal % 2 = 0 <;>
    simp [WallFollowMove, hcan, hfoll, hrand]

/-- C6 witness: the episode start at a concrete status and specs. -/
theorem C6_episode_start_witness :
    (WallFollowMove wSpecsR ⟨false, false, false⟩ 0).2.1.is_following_wall_ = true ∧
      ((WallFollowMove wSpecsR ⟨false, false, false⟩ 0).1.turn_type_ = TurnType.LEFT ∨
        (WallFollowMove wSpecsR ⟨false, false, false⟩ 0).1.turn_type_ = TurnType.RIGHT) ∧
      (WallFollowMove wSpecsR ⟨false, false, false⟩ 0).2.2 = none :=
  C6_episode_start wSpecsR ⟨false, false, false⟩ 0 rfl rfl

/-- C8. Wall-proximity evaluation: while following a wall, `IsCloseToWall`
with RIGHT (resp. LEFT) sets `isCloseToWall` true iff the right (resp.
left) sector minimum is below `wallFollowDistance`; with NONE it fails
fatally and assigns no result. -/
theorem C8_isCloseToWall (specs : MoveSpecs) (status : MoveStatus)
    (right_min left_min center_min : ℚ)
    (hfoll : status.is_following_wall_ = true) :
    (specs.turn_type_ = TurnType.RIGHT →
      IsCloseToWall specs status right_min left_min center_min =
        some { status with
          is_close_to_wall_ := decide (right_min < specs.wall_follow_distance_) }) ∧
    (specs.turn_type_ = TurnType.LEFT →
      IsCloseToWall specs status right_min left_min center_min =
        some { status with
          is_close_to_wall_ := decide (left_min < specs.wall_follow_distance_) }) ∧
    (specs.turn_type_ = TurnType.NONE →
      IsCloseToWall specs status right_min left_min center_min = none) := by
  refine ⟨fun ht => ?_, fun ht => ?_, fun ht => ?_⟩ <;>
    simp [IsCloseToWall, hfoll, ht]

/-- C8 witness: a concrete proximity evaluation through the theorem. -/
theorem C8_isCloseToWall_witness :
    IsCloseToWall wSpecsR ⟨true, false, true⟩ (1/4) 2 2 =
      some ⟨true, true, true⟩ :=
  (C8_isCloseToWall wSpecsR ⟨true, false, true⟩ (1/4) 2 2 rfl).1 rfl

/-- C1. Wall-follow command table: with turn direction LEFT (sign +1) or
RIGHT (sign −1), the controller emits `(linearVelocity, 0)` when it can
continue and is not following a wall, `(linearVelocity, 0)` when following
with clearance and close to the wall, `(0, sign·angularVelocity)` when
following without clearance, and `(0, −sign·angularVelocity)` when
following with clearance but no longer close to the wall; in particular
RIGHT and no clearance gives `(0, −angularVelocity)`. -/
theorem C1_wallFollow_command_table (specs : MoveSpecs) (status : MoveStatus)
    (randVal : ℕ) :
    (status.can_continue_ = true → status.is_following_wall_ = false →
      (WallFollowMove specs status randVal).2.2 =
        some (specs.linear_velocity_, 0)) ∧
    (status.is_following_wall_ = true → status.can_continue_ = true →
      status.is_close_to_wall_ = true →
      (WallFollowMove specs status randVal).2.2 =
        some (specs.linear_velocity_, 0)) ∧
    (status.is_following_wall_ = true → status.can_continue_ = false →
      specs.turn_type_ = TurnType.LEFT →
      (WallFollowMove specs status randVal).2.2 =
        some (0, specs.angular_velocity_)) ∧
    (status.is_following_wall_ = true → status.can_continue_ = false →
      specs.turn_type_ = TurnType.RIGHT →
      (WallFollowMove specs status randVal).2.2 =
        some (0, -specs.angular_velocity_)) ∧
    (status.is_following_wall_ = true → status.can_continue_ = true →
      status.is_close_to_wall_ = false → specs.turn_type_ = TurnType.LEFT →
      (WallFollowMove specs status randVal).2.2 =
        some (0, -specs.angular_velocity_)) ∧
    (status.is_following_wall_ = true → status.can_continue_ = true →
      status.is_close_to_wall_ = false → specs.turn_type_ = TurnType.RIGHT →
      (WallFollowMove specs status randVal).2.2 =
        some (0, specs.angular_velocity_)) := by
  refine ⟨fun h1 h2 => ?_, fun h1 h2 h3 => ?_, fun h1 h2 ht => ?_,
    fun h1 h2 ht => ?_, fun h1 h2 h3 ht => ?_, fun h1 h2 h3 ht => ?_⟩ <;>
    simp [WallFollowMove, *, TurnType.sign, TurnType.ordinal]

/-- C1 witness: Scenario D — RIGHT, following, blocked gives
`(0, −angularVelocity)`. -/
theorem C1_wallFollow_command_table_witness :
    (WallFollowMove wSpecsR ⟨false, false, true⟩ 0).2.2 =
      some (0, -wSpecsR.angular_velocity_) :=
  (C1_wallFollow_command_table wSpecsR ⟨false, false, true⟩ 0).2.2.2.1
    rfl rfl rfl

/-- A sample frame for the approach controller: reading 1 at index 0
(the right window's low index) and 0.9 at index 90. -/
def wApproachRanges : List ℚ := 1 :: (List.replicate 89 2 ++ [0.9])

/-- C4. Target-approach control: with RIGHT (resp. LEFT) and
`diff = frontValue − s·backValue`, the command is `(linearVelocity, 0)` when
`−0.05 ≤ diff ≤ 0.05` (bounds inclusive), `(0, −sign·angularVelocity/4)`
when `diff > 0.05`, and `(0, sign·angularVelocity/4)` when `diff < −0.05`,
with sign −1 for RIGHT and +1 for LEFT. -/
theorem C4_hitCircle_table (s : ℚ) (specs : MoveSpecs) (ranges : List ℚ)
    (back front : ℚ) :
    (specs.turn_type_ = TurnType.RIGHT →
      ranges.get? specs.right_range_.low_lim_ = some back →
      ranges.get? 90 = some front →
      ((-0.05 ≤ front - s * back ∧ front - s * back ≤ 0.05) →
        HitCircle s specs ranges = some (some (specs.linear_velocity_, 0))) ∧
      (front - s * back > 0.05 →
        HitCircle s specs ranges =
          some (some (0, specs.angular_velocity_ / 4))) ∧
      (front - s * back < -0.05 →
        HitCircle s specs ranges =
          some (some (0, -(specs.angular_velocity_ / 4))))) ∧
    (specs.turn_type_ = TurnType.LEFT →
      ranges.get? specs.left_range_.high_lim_ = some back →
      ranges.get? 630 = some front →
      ((-0.05 ≤ front - s * back ∧ front - s * back ≤ 0.05) →
        HitCircle s specs ranges = some (some (specs.linear_velocity_, 0))) ∧
      (front - s * back > 0.05 →
        HitCircle s specs ranges =
          some (some (0, -(specs.angular_velocity_ / 4)))) ∧
      (front - s * back < -0.05 →
        HitCircle s specs ranges =
          some (some (0, specs.angular_velocity_ / 4)))) := by
  obtain ⟨hs, ls, ws, lv, av, rr, lr, cr, tt⟩ := specs
  constructor
  · rintro rfl hb hf
    refine ⟨fun hd => ?_, fun hd => ?_, fun hd => ?_⟩ <;>
      simp only [HitCircle, hb, hf]
    · rw [if_pos ⟨hd.2, hd.1⟩]
    · rw [if_neg (by simp only [not_and, not_le, ge_iff_le]; intro h; linarith),
        if_pos hd]
      simp [TurnType.sign, TurnType.ordinal]
    · rw [if_neg (by simp only [not_and, not_le, ge_iff_le]; intro h; linarith),
        if_neg (by linarith)]
      simp [TurnType.sign, TurnType.ordinal]
      ring
  · rintro rfl hb hf
    refine ⟨fun hd => ?_, fun hd => ?_, fun hd => ?_⟩ <;>
      simp only [HitCircle, hb, hf]
    · rw [if_pos ⟨hd.2, hd.1⟩]
    · rw [if_neg (by simp only [not_and, not_le, ge_iff_le]; intro h; linarith),
        if_pos hd]
      simp [TurnType.sign, TurnType.ordinal]
      ring
    · rw [if_neg (by simp only [not_and, not_le, ge_iff_le]; intro h; linarith),
        if_neg (by linarith)]
      simp [TurnType.sign, TurnType.ordinal]

/-- C4 witness: Scenario E — front 0.9, back 1, s = 0.866 is aligned and
drives straight. -/
theorem C4_hitCircle_table_witness :
    HitCircle 0.866 wSpecsR wApproachRanges =
      some (some (wSpecsR.linear_velocity_, 0)) :=
  ((C4_hitCircle_table 0.866 wSpecsR wApproachRanges 1 0.9).1 rfl (by decide)
    (by decide)).1 (by decide)

/-- The sample controller state before any wall-follow episode, with turn
direction NONE. -/
def wStNone : CtrlState where
  circle_hit_mode_ := false
  circle_x := -10
  circle_y := -10
  move_specs_ := { wSpecsR with turn_type_ := TurnType.NONE }
  move_status_ := ⟨true, false, false⟩

/-- A sample message whose target is centered and close. -/
def wMsgHit : CircleDetectMsg := ⟨List.replicate 5 2, 0, 0⟩

/-- C2. Mode-switch condition: in a cycle that starts with `hitMode`
false, with `wall` = `ranges[380]` for RIGHT, `ranges[340]` for LEFT and
1.0 otherwise, the cycle ends with `hitMode` true iff
`wall² > circleX² + circleY² + 0.5`, `−0.5 < circleX < 0.5` and
`circleY < 1`. -/
theorem C2_modeSwitch_iff (s : ℚ) (st : CtrlState) (msg : CircleDetectMsg)
    (randVal : ℕ) (wall : ℚ) (st1 : CtrlState) (cmd : Option (ℚ × ℚ))
    (hhit : st.circle_hit_mode_ = false)
    (hwall :
      (st.move_specs_.turn_type_ = TurnType.RIGHT ∧
        msg.ranges.get? 380 = some wall) ∨
      (st.move_specs_.turn_type_ = TurnType.LEFT ∧
        msg.ranges.get? 340 = some wall) ∨
      (st.move_specs_.turn_type_ = TurnType.NONE ∧ wall = 1))
    (hrun : LaserCallback s st msg randVal = some (st1, cmd)) :
    st1.circle_hit_mode_ = true ↔
      (wall * wall >
        msg.circle_x * msg.circle_x + msg.circle_y * msg.circle_y + 0.5 ∧
      -0.5 < msg.circle_x ∧ msg.circle_x < 0.5 ∧ msg.circle_y < 1) := by
  simp only [LaserCallback, hhit, Bool.not_false, if_true] at hrun
  rcases hwall with ⟨ht, hg⟩ | ⟨ht, hg⟩ | ⟨ht, hw⟩ <;>
    rw [ht] at hrun
  · rw [hg] at hrun
    rcases hnm : NormalMovement st.move_specs_ st.move_status_ msg.ranges with
      _ | status1 <;> rw [hnm] at hrun
    · exact absurd hrun (by simp)
    · cases hrun
      by_cases hc : wall * wall >
          msg.circle_x * msg.circle_x + msg.circle_y * msg.circle_y + 0.5 ∧
          msg.circle_x > -0.5 ∧ msg.circle_x < 0.5 ∧ msg.circle_y < 1
      · simp [hc]
      · simp [hc, hhit]
  · rw [hg] at hrun
    rcases hnm : NormalMovement st.move_specs_ st.move_status_ msg.ranges with
      _ | status1 <;> rw [hnm] at hrun
    · exact absurd hrun (by simp)
    · cases hrun
      by_cases hc : wall * wall >
          msg.circle_x * msg.circle_x + msg.circle_y * msg.circle_y + 0.5 ∧
          msg.circle_x > -0.5 ∧ msg.circle_x < 0.5 ∧ msg.circle_y < 1
      · simp [hc]
      · simp [hc, hhit]
  · subst hw
    rcases hnm : NormalMovement st.move_specs_ st.move_status_ msg.ranges with
      _ | status1 <;> rw [hnm] at hrun
    · exact absurd hrun (by simp)
    · cases hrun
      by_cases hc : (1 : ℚ) * 1 >
          msg.circle_x * msg.circle_x + msg.circle_y * msg.circle_y + 0.5 ∧
          msg.circle_x > -0.5 ∧ msg.circle_x < 0.5 ∧ msg.circle_y < 1
      · simp [hc]
      · simp [hc, hhit]

/-- C2 witness: Scenario-F-style input — wall 1.0 (direction NONE), target
at (0, 0) — flips `hitMode` through the theorem. -/
theorem C2_modeSwitch_iff_witness :
    (CtrlState.mk true 0 0 { wSpecsR with turn_type_ := TurnType.NONE }
        ⟨true, false, false⟩).circle_hit_mode_ = true ↔
      ((1 : ℚ) * 1 >
        wMsgHit.circle_x * wMsgHit.circle_x +
          wMsgHit.circle_y * wMsgHit.circle_y + 0.5 ∧
      -0.5 < wMsgHit.circle_x ∧ wMsgHit.circle_x < 0.5 ∧
        wMsgHit.circle_y < 1) :=
  C2_modeSwitch_iff 0 wStNone wMsgHit 0 1
    (CtrlState.mk true 0 0 { wSpecsR with turn_type_ := TurnType.NONE }
      ⟨true, false, false⟩)
    (some (wSpecsR.linear_velocity_, 0)) rfl (Or.inr (Or.inr ⟨rfl, rfl⟩))
    (by decide)

/-- One defined cycle never clears `circle_hit_mode_`: in hit mode the
callback routes to `HitCircle`, which leaves the state untouched. -/
lemma laserCallback_preserves_hit (s : ℚ) (st : CtrlState)
    (msg : CircleDetectMsg) (randVal : ℕ) (st1 : CtrlState)
    (cmd : Option (ℚ × ℚ)) (h : st.circle_hit_mode_ = true)
    (hrun : LaserCallback s st msg randVal = some (st1, cmd)) :
    st1.circle_hit_mode_ = true := by
  simp only [LaserCallback, h, Bool.not_true, if_false] at hrun
  rcases hhc : HitCircle s st.move_specs_ msg.ranges with _ | c <;>
    rw [hhc] at hrun
  · exact absurd hrun (by simp)
  · cases hrun
    exact h

/-- C5. `hitMode` is monotonic: a run that starts with `hitMode` true keeps
it true through every subsequent cycle; no operation resets it. -/
theorem C5_hitMode_monotone (s : ℚ) (st : CtrlState)
    (cycles : List (CircleDetectMsg × ℕ)) (h : st.circle_hit_mode_ = true) :
    (runCycles s st cycles).circle_hit_mode_ = true := by
  induction cycles generalizing st with
  | nil => simpa [runCycles] using h
  | cons p rest ih =>
      rcases p with ⟨msg, randVal⟩
      rw [runCycles]
      rcases hrun : LaserCallback s st msg randVal with _ | ⟨st1, cmd⟩
      · exact ih st h
      · exact ih st1 (laserCallback_preserves_hit s st msg randVal st1 cmd h hrun)

/-- The sample controller state already in hit mode. -/
def wStHit : CtrlState where
  circle_hit_mode_ := true
  circle_x := 0
  circle_y := 0
  move_specs_ := wSpecsR
  move_status_ := ⟨true, false, true⟩

/-- C5 witness: a concrete run through the theorem. -/
theorem C5_hitMode_monotone_witness :
    (runCycles 0 wStHit [(wMsgHit, 0)]).circle_hit_mode_ = true :=
  C5_hitMode_monotone 0 wStHit [(wMsgHit, 0)] rfl

/-- C10. Switching-cycle routing: a cycle that starts with `hitMode` false
takes its command from the wall-follow path (`NormalMovement` then
`WallFollowMove`) even if `hitMode` flips during that cycle, while a cycle
that starts with `hitMode` true takes its command from `HitCircle` and
leaves the state unchanged. -/
theorem C10_switch_cycle_routing (s : ℚ) (st : CtrlState)
    (msg : CircleDetectMsg) (randVal : ℕ) (st1 : CtrlState)
    (cmd : Option (ℚ × ℚ)) :
    (st.circle_hit_mode_ = false →
      LaserCallback s st msg randVal = some (st1, cmd) →
      ∃ status1,
        NormalMovement st.move_specs_ st.move_status_ msg.ranges =
          some status1 ∧
        cmd = (WallFollowMove st.move_specs_ status1 randVal).2.2) ∧
    (st.circle_hit_mode_ = true →
      LaserCallback s st msg randVal = some (st1, cmd) →
      st1 = st ∧ HitCircle s st.move_specs_ msg.ranges = some cmd) := by
  constructor
  · intro hhit hrun
    simp only [LaserCallback, hhit, Bool.not_false, if_true] at hrun
    rcases ht : st.move_specs_.turn_type_ <;> rw [ht] at hrun
    · rcases hg : msg.ranges.get? 380 with _ | wall <;> rw [hg] at hrun
      · exact absurd hrun (by simp)
      · rcases hnm : NormalMovement st.move_specs_ st.move_status_ msg.ranges
          with _ | status1 <;> rw [hnm] at hrun
        · exact absurd hrun (by simp)
        · cases hrun
          exact ⟨status1, rfl, rfl⟩
    · rcases hnm : NormalMovement st.move_specs_ st.move_status_ msg.ranges
        with _ | status1 <;> rw [hnm] at hrun
      · exact absurd hrun (by simp)
      · cases hrun
        exact ⟨status1, rfl, rfl⟩
    · rcases hg : msg.ranges.get? 340 with _ | wall <;> rw [hg] at hrun
      · exact absurd hrun (by simp)
      · rcases hnm : NormalMovement st.move_specs_ st.move_status_ msg.ranges
          with _ | status1 <;> rw [hnm] at hrun
        · exact absurd hrun (by simp)
        · cases hrun
          exact ⟨status1, rfl, rfl⟩
  · intro hhit hrun
    simp only [LaserCallback, hhit, Bool.not_true, if_false] at hrun
    rcases hhc : HitCircle s st.move_specs_ msg.ranges with _ | c <;>
      rw [hhc] at hrun
    · exact absurd hrun (by simp)
    · cases hrun
      exact ⟨rfl, rfl⟩

/-- A sample approach-phase message. -/
def wMsgApproach : CircleDetectMsg := ⟨wApproachRanges, -10, -10⟩

/-- C10 witness: a hit-mode cycle routed through `HitCircle`. -/
theorem C10_switch_cycle_routing_witness :
    wStHit = wStHit ∧
      HitCircle 0.866 wStHit.move_specs_ wMsgApproach.ranges =
        some (some (wSpecsR.linear_velocity_, 0)) :=
  (C10_switch_cycle_routing 0.866 wStHit wMsgApproach 0 wStHit
    (some (wSpecsR.linear_velocity_, 0))).2 rfl (by decide)

/-- A scan frame of 100 readings: too short for the fixed bearing index 380
read while the turn direction is RIGHT. -/
def wShortFrame : List ℚ := List.replicate 100 1

/-- The sample pre-hit controller state with turn direction RIGHT. -/
def wStShort : CtrlState where
  circle_hit_mode_ := false
  circle_x := -10
  circle_y := -10
  move_specs_ := wSpecsR
  move_status_ := ⟨true, false, false⟩

/-- The undersized message. -/
def wMsgShort : CircleDetectMsg := ⟨wShortFrame, -10, -10⟩

/-- C7. Undersized frame: with `hitMode` false and turn direction RIGHT,
a 100-reading frame makes the cycle read `ranges[380]` out of bounds. The
C++ performs this `std::vector` access unchecked — undefined behaviour with
no `OutOfRange` error path anywhere in the program — which the model marks
by returning `none` for the whole cycle. -/
theorem C7_short_frame_unchecked_access :
    LaserCallback 0 wStShort wMsgShort 0 = none := by decide

end WallFollower
